import Mathlib

/-
Verification development for the pypsa-earth utility scripts:
compare_config.py (a yaml/config differ) and scripts/solve_network.py
(the solve driver and its auxiliary constraint builders).

The embedding is shallow: Python dict/yaml documents become an inductive
tree, pandas single-row frames become association lists, the linopy model
becomes a record of variable names and constraint names, Python exceptions
become an Except monad, and the external solver is an oracle supplying the
status/condition pair of each optimize entry point.  Coefficient values of
the registered constraints are owned by the external library and are not
modelled; registration is tracked by constraint name, which is what the
claims are about.
-/

namespace PyPSAEarth

/- ------------------------------------------------------------------ -/
/- Generic helpers                                                     -/
/- ------------------------------------------------------------------ -/

/-- Python substring membership test: the expression pat in s for strings. -/
def pyIn (pat s : String) : Bool :=
  (s.data.tails).any (fun t => pat.data.isPrefixOf t)

instance instDecEqExcept {e a : Type} [DecidableEq e] [DecidableEq a] :
    DecidableEq (Except e a) := fun x y =>
  match x, y with
  | Except.ok u, Except.ok v =>
      if h : u = v then isTrue (by rw [h]) else isFalse (by simp [h])
  | Except.error u, Except.error v =>
      if h : u = v then isTrue (by rw [h]) else isFalse (by simp [h])
  | Except.ok _, Except.error _ => isFalse (by simp)
  | Except.error _, Except.ok _ => isFalse (by simp)

/- ------------------------------------------------------------------ -/
/- compare_config.py                                                   -/
/- ------------------------------------------------------------------ -/

/-- A yaml/json document after safe_load: either a scalar leaf or a nested
mapping, modelled as an association list of key/subdocument pairs. -/
inductive Doc where
  | leaf : Int → Doc
  | dict : List (String × Doc) → Doc
  deriving Repr

/-- Key joining of pd.json_normalize with sep given as the plus sign: a
top-level key keeps its name, a nested key is glued to the running name. -/
def joinKey : Option String → String → String
  | none, k => k
  | some p, k => p ++ "+" ++ k

mutual

/-- Flattening of a document under a running column-name, the behaviour of
pd.json_normalize on one document: scalar leaves become cells, nested
mappings contribute their entries with joined names. -/
def flattenDoc : Option String → Doc → List (String × Int)
  | pre, Doc.leaf v => [(pre.getD "", v)]
  | pre, Doc.dict es => flattenEntries pre es

/-- Flattening of the entries of one mapping level, left to right. -/
def flattenEntries : Option String → List (String × Doc) → List (String × Int)
  | _, [] => []
  | pre, (k, d) :: es => flattenDoc (some (joinKey pre k)) d ++ flattenEntries pre es

end

/-- Columns and cells of the single-row frame pd.json_normalize(doc, sep). -/
def flatten (d : Doc) : List (String × Int) := flattenDoc none d

/-- Re-reading a flattened single-row frame as a document whose values are
the scalar cells: the reload step of the normalization round trip. -/
def asDoc (f : List (String × Int)) : Doc :=
  Doc.dict (f.map (fun kv => (kv.1, Doc.leaf kv.2)))

/-- Python set difference of two column collections, kept in column order. -/
def listDiff (xs ys : List String) : List String :=
  xs.filter (fun x => decide (x ∉ ys))

/-- Symmetric difference of the two column sets, source line 52:
set(df_second_config.columns).symmetric_difference(df_first_config.columns). -/
def colDiff (second first : List String) : List String :=
  (listDiff second first ++ listDiff first second).dedup

/-- Column difference of the two flattened documents. -/
def colDiffOf (first second : Doc) : List String :=
  colDiff ((flatten second).map Prod.fst) ((flatten first).map Prod.fst)

/-- A single-row frame cell; none models a NaN produced by reindexing. -/
abbrev Row := List (String × Option Int)

/-- Lift of a flattened document to a frame row with no NaN cells. -/
def toRow (f : List (String × Int)) : Row :=
  f.map (fun kv => (kv.1, some kv.2))

/-- Lookup of a cell by column name, first match. -/
def lookupCell (f : List (String × Int)) (k : String) : Option Int :=
  (f.find? (fun kv => kv.1 == k)).map (fun kv => kv.2)

/-- DataFrame.drop of a collection of column labels, source lines 60-65. -/
def dropCols (f : List (String × Int)) (bad : List String) : List (String × Int) :=
  f.filter (fun kv => decide (kv.1 ∉ bad))

/-- DataFrame.reindex over a list of column labels: a label absent from the
frame yields a NaN cell. -/
def reindexRow (f : List (String × Int)) (cols : List String) : Row :=
  cols.map (fun k => (k, lookupCell f k))

/-- Character-list lexicographic strict order used to model Python sorted. -/
def strLtChars : List Char → List Char → Bool
  | [], [] => false
  | [], _ :: _ => true
  | _ :: _, [] => false
  | a :: as, b :: bs =>
      if a.toNat < b.toNat then true
      else if b.toNat < a.toNat then false
      else strLtChars as bs

/-- Boolean less-or-equal on strings. -/
def strLeB (a b : String) : Bool := !(strLtChars b.data a.data)

/-- Insertion into an ascending list of column names. -/
def insertSorted (x : String) : List String → List String
  | [] => [x]
  | y :: ys => if strLeB x y then x :: y :: ys else y :: insertSorted x ys

/-- Python sorted on a list of column names, ascending. -/
def sortCols (xs : List String) : List String := xs.foldr insertSorted []

/-- Cell-wise difference test of DataFrame.compare: an equal pair of cells is
dropped, a differing pair is reported as (column, self cell, other cell). -/
def diffCell (p : (String × Option Int) × (String × Option Int)) :
    Option (String × Option Int × Option Int) :=
  if p.1.2 = p.2.2 then none else some (p.1.1, p.1.2, p.2.2)

/-- DataFrame.compare, called as second.compare(first): defined only for
identically labelled frames (otherwise pandas raises ValueError, modelled by
the error case), and reports the differing cells column by column. -/
def compareRows (second first : Row) :
    Except Unit (List (String × Option Int × Option Int)) :=
  if second.map Prod.fst = first.map Prod.fst then
    Except.ok ((second.zip first).filterMap diffCell)
  else Except.error ()

/-- Main comparison of compare_config.py, source lines 49-72, on two loaded
documents: the column difference together with the comparison report.  In
the branch where the column sets differ, the code at source lines 60-65
builds BOTH comparison operands from df_second_config (the variable named
df_first_config2 is also derived from df_second_config), drops the columns
of the second frame missing from the first, and reindexes both over the
sorted columns of the second frame; the reindex restores every dropped
column as NaN. -/
def compare_config (first second : Doc) :
    List String × Except Unit (List (String × Option Int × Option Int)) :=
  let fFirst := flatten first
  let fSecond := flatten second
  let cd := colDiffOf first second
  if 0 < cd.length then
    let dropSet := listDiff (fSecond.map Prod.fst) (fFirst.map Prod.fst)
    let sortedCols := sortCols (fSecond.map Prod.fst)
    let df_first2 := reindexRow (dropCols fSecond dropSet) sortedCols
    let df_second2 := reindexRow (dropCols fSecond dropSet) sortedCols
    (cd, compareRows df_second2 df_first2)
  else
    (cd, compareRows (toRow fSecond) (toRow fFirst))

/-- Guard of source line 54: col_diff.csv is written only when the column
difference is non-empty. -/
def writes_col_diff_csv (first second : Doc) : Bool :=
  decide (0 < (colDiffOf first second).length)

/- ------------------------------------------------------------------ -/
/- scripts/solve_network.py: data model                                 -/
/- ------------------------------------------------------------------ -/

/-- Python exception kinds relevant to the modelled control flow. -/
inductive PyErr where
  | ioError
  | valueError
  | nameError
  | keyError
  | indexError
  deriving DecidableEq, Repr

/-- A bus row of the network table. -/
structure Bus where
  name : String
  carrier : String
  deriving DecidableEq, Repr

/-- A generator row of the network table. -/
structure Generator where
  name : String
  bus : String
  carrier : String
  p_nom_extendable : Bool
  deriving DecidableEq, Repr

/-- A line row of the network table. -/
structure Line where
  name : String
  s_nom_extendable : Bool
  deriving DecidableEq, Repr

/-- A link row of the network table. -/
structure Link where
  name : String
  efficiency : Int
  p_nom_extendable : Bool
  deriving DecidableEq, Repr

/-- The linopy optimization model attached to the network: variable groups
and registered constraint groups, tracked by name. -/
structure LinopyModel where
  vars : List String
  constraints : List String
  deriving DecidableEq, Repr

/-- The pypsa network object, restricted to the attributes the modelled code
reads.  The opts field holds the option flags of the run (wildcard string),
which the module docstring of extra_functionality expects to be attached to
the network. -/
structure Network where
  buses : List Bus
  generators : List Generator
  lines : List Line
  links : List Link
  model : LinopyModel
  opts : String
  deriving DecidableEq, Repr

/-- Relevant configuration entries: the truthiness of
config[electricity][operational_reserve][activate] and the path
config[electricity][agg_p_nom_limits]. -/
structure Config where
  operational_reserve_activate : Bool
  agg_p_nom_limits : Option String
  deriving DecidableEq, Repr

/-- The parsed aggregate-capacity-limits CSV: rows indexed by country and
carrier holding optional min and max entries. -/
structure AggLimits where
  rows : List ((String × String) × (Option Int × Option Int))
  deriving DecidableEq, Repr

/-- The outside world of add_CCL_constraints: the outcome of
pd.read_csv(config[electricity][agg_p_nom_limits]). -/
structure Env where
  readAggCsv : Except PyErr AggLimits
  deriving Repr

/-- Variable-group lookup n.model[name]: a KeyError when absent. -/
def getVar (n : Network) (v : String) : Except PyErr Unit :=
  if n.model.vars.contains v then Except.ok () else Except.error PyErr.keyError

/-- Registration of a constraint group under a name, the effect of
n.model.add_constraints(..., name). -/
def addConstraintN (n : Network) (c : String) : Network :=
  ⟨n.buses, n.generators, n.lines, n.links,
   ⟨n.model.vars, n.model.constraints ++ [c]⟩, n.opts⟩

/-- Addition of a variable group, the effect of n.model.add_variables. -/
def addVarN (n : Network) (v : String) : Network :=
  ⟨n.buses, n.generators, n.lines, n.links,
   ⟨n.model.vars ++ [v], n.model.constraints⟩, n.opts⟩

/-- Row lookup n.links.loc[label, efficiency]: KeyError when the label is
missing. -/
def getLinkEff (n : Network) (label : String) : Except PyErr Int :=
  match n.links.find? (fun l => l.name == label) with
  | some l => Except.ok l.efficiency
  | none => Except.error PyErr.keyError

/-- Label selection on the Link-ext coordinate of the Link-p_nom variable:
the label must be an extendable link, otherwise a KeyError. -/
def selLinkExt (n : Network) (label : String) : Except PyErr Unit :=
  if (n.links.filter (fun l => l.p_nom_extendable)).any (fun l => l.name == label)
  then Except.ok () else Except.error PyErr.keyError

/- ------------------------------------------------------------------ -/
/- scripts/solve_network.py: constraint builders                         -/
/- ------------------------------------------------------------------ -/

/-- Source lines 358-370.  Battery charger/discharger ratio constraints:
with no battery bus the function returns at once; otherwise it looks up the
Link-p_nom variable, reads the discharger efficiencies (eff, then eff[0]),
selects the charger and discharger labels, and registers the constraint
named link_charger_ratio.  Coefficient values are not modelled. -/
def add_battery_constraints (n : Network) : Except PyErr Network := do
  let nodes := (n.buses.filter (fun b => b.carrier == "battery")).map (fun b => b.name)
  if nodes.isEmpty then
    return n
  else
    let _ ← getVar n "Link-p_nom"
    let effs ← nodes.mapM (fun b => getLinkEff n (b ++ " discharger"))
    let _ ← match effs.head? with
            | some e0 => Except.ok e0
            | none => Except.error PyErr.indexError
    let _ ← nodes.mapM (fun b => selLinkExt n (b ++ " charger"))
    let _ ← nodes.mapM (fun b => selLinkExt n (b ++ " discharger"))
    return addConstraintN n "link_charger_ratio"

/-- Source lines 147-188.  CCL constraints.  The read of the
aggregate-capacity-limits CSV is wrapped in try/except IOError whose handler
only calls logger.exception, so an IO failure is logged and swallowed and
control falls through; any non-IO read failure propagates uncaught.  After
the try block the code looks up n.model[Generator-p_nom] (line 163, KeyError
when absent) and later dereferences the local agg_p_nom_minmax (line 180),
which is unbound when the read failed, raising a NameError.  On a successful
read the constraints agg_p_nom_min and agg_p_nom_max are registered; the
grouping coefficients are not modelled.  The Bool result records whether
logger.exception ran. -/
def add_CCL_constraints (n : Network) (env : Env) : Bool × Except PyErr Network :=
  match env.readAggCsv with
  | Except.error PyErr.ioError =>
      (true,
        match getVar n "Generator-p_nom" with
        | Except.error e => Except.error e
        | Except.ok _ => Except.error PyErr.nameError)
  | Except.error e => (false, Except.error e)
  | Except.ok _lims =>
      (false,
        match getVar n "Generator-p_nom" with
        | Except.error e => Except.error e
        | Except.ok _ =>
            Except.ok (addConstraintN (addConstraintN n "agg_p_nom_min") "agg_p_nom_max"))

/-- Source lines 231-254.  BAU constraints: after looking up the
Generator-p_nom variable the constraint bau_mincaps is registered
(lines 239-244); line 247 then evaluates a dict comprehension over the name
ext_c, which is defined nowhere in the module, so the function always raises
a NameError after that registration (the partially mutated model is
discarded here because the enclosing solve aborts). -/
def add_BAU_constraints (n : Network) (_config : Config) : Except PyErr Network :=
  match getVar n "Generator-p_nom" with
  | Except.error e => Except.error e
  | Except.ok _ =>
      let _partial := addConstraintN n "bau_mincaps"
      Except.error PyErr.nameError

/-- Source lines 257-270.  SAFE reserve-margin constraint: looks up the
Generator-p_nom variable and registers safe_mintotalcap; the peak-demand
arithmetic is not modelled. -/
def add_SAFE_constraints (n : Network) (_config : Config) : Except PyErr Network :=
  match getVar n "Generator-p_nom" with
  | Except.error e => Except.error e
  | Except.ok _ => Except.ok (addConstraintN n "safe_mintotalcap")

/-- Source lines 273-315.  Adds the Generator-r variable group and registers
the reserve_margin constraint; coefficients are not modelled. -/
def add_operational_reserve_margin_constraint (n : Network) : Network :=
  addConstraintN (addVarN n "Generator-r") "reserve_margin"

/-- Source lines 318-343.  Looks up the Generator-p and Generator-r variable
groups (and Generator-p_nom when extendable generators exist) and registers
the gen_updated_capacity_constraint constraint. -/
def update_capacity_constraint (n : Network) : Except PyErr Network := do
  let _ ← getVar n "Generator-p"
  let _ ← getVar n "Generator-r"
  let _ ← if n.generators.any (fun g => g.p_nom_extendable)
          then getVar n "Generator-p_nom" else Except.ok ()
  return addConstraintN n "gen_updated_capacity_constraint"

/-- Source lines 346-355. -/
def add_operational_reserve_margin (n : Network) : Except PyErr Network :=
  update_capacity_constraint (add_operational_reserve_margin_constraint n)

/-- Source lines 492-518.  Supplementary-constraint hook handed to the
optimizer.  Line 500 binds opts to the empty string literal (it does NOT
read the option flags of the run, although the docstring says they are
expected to be attached to the network), so each of the three flag tests
"BAU in opts", "SAFE in opts", "CCL in opts" is evaluated against the empty
string.  The reserve branch reads the config attached to the network at
solve_network line 538, and add_battery_constraints always runs last. -/
def extra_functionality (n : Network) (config : Config) (env : Env) :
    Except PyErr Network := do
  let opts := ""
  let n1 ← if pyIn "BAU" opts && n.generators.any (fun g => g.p_nom_extendable)
           then add_BAU_constraints n config else Except.ok n
  let n2 ← if pyIn "SAFE" opts && n1.generators.any (fun g => g.p_nom_extendable)
           then add_SAFE_constraints n1 config else Except.ok n1
  let n3 ← if pyIn "CCL" opts && n2.generators.any (fun g => g.p_nom_extendable)
           then (add_CCL_constraints n2 env).2 else Except.ok n2
  let n4 ← if config.operational_reserve_activate
           then add_operational_reserve_margin n3 else Except.ok n3
  add_battery_constraints n4

/- ------------------------------------------------------------------ -/
/- scripts/solve_network.py: solve driver                               -/
/- ------------------------------------------------------------------ -/

/-- The status/condition pair returned by an optimize entry point. -/
structure SolverResult where
  status : String
  condition : String
  deriving DecidableEq, Repr

/-- The external solver, as seen by solve_network: one result per entry
point (the plain n.optimize call and the iterative
optimize_transmission_expansion_iteratively call). -/
structure Oracle where
  optimizeResult : SolverResult
  iterativeResult : SolverResult
  deriving DecidableEq, Repr

/-- The solving.options subtree read by solve_network; a none field models
an absent key, read through .get with the default of the source. -/
structure CfSolving where
  skip_iterations : Option Bool
  track_iterations : Option Bool
  min_iterations : Option Nat
  max_iterations : Option Nat
  deriving DecidableEq, Repr

/-- One call to an external optimize entry point.  The iterative entry point
records the keyword arguments for track/min/max iterations: none when the
keyword is not passed at all, and otherwise the Python value, which at
source lines 552-554 is a 1-tuple (trailing commas), modelled as a
one-element list. -/
inductive SolveCall where
  | plainOptimize : SolveCall
  | iterative : Option (List Bool) → Option (List Nat) → Option (List Nat) → SolveCall
  deriving DecidableEq, Repr

/-- The only exception raised by solve_network itself, source line 567:
RuntimeError with the infeasible message. -/
inductive SolveErr where
  | runtimeInfeasible : SolveErr
  deriving DecidableEq, Repr

/-- Observable behaviour of one solve_network run: external calls in order,
whether the non-ok warning was logged, whether infeasibility diagnostics
were requested from the model (compute_infeasibilities and
print_infeasibilities, lines 564-566), and the outcome. -/
structure SolveTrace where
  calls : List SolveCall
  warned : Bool
  diagnostics : Bool
  outcome : Except SolveErr Network
  deriving Repr

/-- Source lines 540-543: skip_iterations from the config, forced to true
when no line is extendable. -/
def effectiveSkip (n : Network) (cf : CfSolving) : Bool :=
  cf.skip_iterations.getD false || !(n.lines.any (fun l => l.s_nom_extendable))

/-- Source lines 521-569.  The solve driver.  Line 547 calls the iterative
entry point unconditionally, without the iteration keyword arguments, and
its status/condition result is overwritten by the branch that follows: the
skip branch calls the plain optimize entry point (line 550), the other
branch calls the iterative entry point again with track/min/max passed as
1-tuples (lines 552-557).  The final status/condition pair is then
inspected: a non-ok status logs a warning, and a condition containing
infeasible requests diagnostics and raises; otherwise the network is
returned. -/
def solve_network (n : Network) (cf : CfSolving) (oracle : Oracle) : SolveTrace :=
  let skip := effectiveSkip n cf
  let leftoverCall := SolveCall.iterative none none none
  let branched :=
    if skip then (SolveCall.plainOptimize, oracle.optimizeResult)
    else
      (SolveCall.iterative (some [cf.track_iterations.getD false])
         (some [cf.min_iterations.getD 4]) (some [cf.max_iterations.getD 6]),
       oracle.iterativeResult)
  let r := branched.2
  let warned := r.status != "ok"
  if pyIn "infeasible" r.condition then
    ⟨[leftoverCall, branched.1], warned, true, Except.error SolveErr.runtimeInfeasible⟩
  else
    ⟨[leftoverCall, branched.1], warned, false, Except.ok n⟩

/-- An oracle whose two entry points return the same status/condition pair. -/
def constOracle (s c : String) : Oracle := ⟨⟨s, c⟩, ⟨s, c⟩⟩

/- ------------------------------------------------------------------ -/
/- Concrete instances used by closed theorems and witnesses            -/
/- ------------------------------------------------------------------ -/

/-- A variable set as present after model construction. -/
def exModel : LinopyModel :=
  ⟨["Generator-p", "Generator-p_nom", "Link-p_nom"], []⟩

/-- A network with one AC bus, one extendable generator, no lines, no links,
and the run option flags BAU-SAFE-CCL attached. -/
def exNet : Network :=
  ⟨[⟨"bus0", "AC"⟩], [⟨"gen0", "bus0", "coal", true⟩], [], [], exModel,
   "BAU-SAFE-CCL"⟩

/-- The same network with one extendable line and no option flags. -/
def exNetLines : Network :=
  ⟨[⟨"bus0", "AC"⟩], [⟨"gen0", "bus0", "coal", true⟩], [⟨"line0", true⟩], [],
   exModel, ""⟩

/-- A config with the operational reserve off and no limits path. -/
def exConfigOff : Config := ⟨false, none⟩

/-- An environment whose CSV read fails with an IOError (missing file). -/
def exEnvIOErr : Env := ⟨Except.error PyErr.ioError⟩

/-- A solving.options subtree with every key absent. -/
def cfNone : CfSolving := ⟨none, none, none, none⟩

/-- A solving.options subtree with skip_iterations set to true. -/
def cfSkip : CfSolving := ⟨some true, none, none, none⟩

/-- First document of the C6 failing input, with an extra top-level key x. -/
def exFirstDoc : Doc := Doc.dict [("a", Doc.leaf 1), ("x", Doc.leaf 5)]

/-- Second document of the C6 failing input. -/
def exSecondDoc : Doc := Doc.dict [("a", Doc.leaf 2)]

/-- Document A of the C8 example. -/
def exDocA : Doc := Doc.dict [("a", Doc.dict [("b", Doc.leaf 1)])]

/-- Document B of the C8 example. -/
def exDocB : Doc := Doc.dict [("a", Doc.dict [("b", Doc.leaf 2)])]

/- ------------------------------------------------------------------ -/
/- Helper lemmas                                                       -/
/- ------------------------------------------------------------------ -/

theorem listDiff_self (xs : List String) : listDiff xs xs = [] := by
  unfold listDiff
  apply List.filter_eq_nil_iff.mpr
  intro a ha
  simp [ha]

theorem colDiff_self (xs : List String) : colDiff xs xs = [] := by
  unfold colDiff
  rw [listDiff_self]
  simp

theorem zip_self_filterMap_diffCell (r : Row) :
    (r.zip r).filterMap diffCell = [] := by
  induction r with
  | nil => rfl
  | cons a r ih => simp [List.zip_cons_cons, diffCell, ih]

theorem compareRows_self (r : Row) : compareRows r r = Except.ok [] := by
  unfold compareRows
  rw [if_pos rfl, zip_self_filterMap_diffCell]

theorem compareRows_single_diff (p q : Row) (k : String) (a b : Option Int)
    (hab : a ≠ b) :
    compareRows (p ++ (k, a) :: q) (p ++ (k, b) :: q) = Except.ok [(k, a, b)] := by
  unfold compareRows
  rw [if_pos (by simp)]
  rw [List.zip_append rfl, List.zip_cons_cons, List.filterMap_append,
    zip_self_filterMap_diffCell, List.filterMap_cons]
  simp [diffCell, hab, zip_self_filterMap_diffCell]

theorem compare_config_same_cols (d1 d2 : Doc)
    (h : (flatten d2).map Prod.fst = (flatten d1).map Prod.fst) :
    compare_config d1 d2 =
      ([], compareRows (toRow (flatten d2)) (toRow (flatten d1))) := by
  have hcd : colDiffOf d1 d2 = [] := by
    unfold colDiffOf
    rw [h]
    exact colDiff_self _
  simp [compare_config, hcd]

theorem flattenEntries_leaves (f : List (String × Int)) :
    flattenEntries none (f.map (fun kv => (kv.1, Doc.leaf kv.2))) = f := by
  induction f with
  | nil => rfl
  | cons kv f ih => simp [flattenEntries, flattenDoc, joinKey, ih]

theorem flatten_asDoc (f : List (String × Int)) : flatten (asDoc f) = f := by
  simp [flatten, asDoc, flattenDoc, flattenEntries_leaves]

/- ------------------------------------------------------------------ -/
/- Claims                                                              -/
/- ------------------------------------------------------------------ -/

/-- C1: in solve_network, whenever the condition of the final solver call
contains infeasible, infeasibility diagnostics are requested from the model
and the run aborts with the RuntimeError of line 567; for every other
status/condition pair solve_network returns the network and requests no
diagnostics, so the infeasible condition is the only raising path. -/
theorem solve_network_raises_iff_infeasible
    (n : Network) (cf : CfSolving) (s c : String) :
    (pyIn "infeasible" c = true →
      (solve_network n cf (constOracle s c)).diagnostics = true ∧
      (solve_network n cf (constOracle s c)).outcome =
        Except.error SolveErr.runtimeInfeasible) ∧
    (pyIn "infeasible" c = false →
      (solve_network n cf (constOracle s c)).outcome = Except.ok n ∧
      (solve_network n cf (constOracle s c)).diagnostics = false) := by
  constructor <;> intro h <;>
    cases hsk : effectiveSkip n cf <;>
      simp [solve_network, constOracle, hsk, h]

/-- Witness for C1: a run whose condition is infeasible aborts, a run whose
condition is optimal returns the network. -/
theorem solve_network_raises_iff_infeasible_witness :
    (solve_network exNet cfNone (constOracle "warning" "infeasible")).outcome =
      Except.error SolveErr.runtimeInfeasible ∧
    (solve_network exNet cfNone (constOracle "ok" "optimal")).outcome =
      Except.ok exNet :=
  ⟨((solve_network_raises_iff_infeasible exNet cfNone "warning" "infeasible").1
      (by decide)).2,
   ((solve_network_raises_iff_infeasible exNet cfNone "ok" "optimal").2
      (by decide)).1⟩

/-- C2: a run of solve_network whose solver status differs from ok while the
condition does not contain infeasible logs the warning and returns the
network normally. -/
theorem solve_network_nonok_warns (n : Network) (cf : CfSolving) (s c : String)
    (hs : s ≠ "ok") (hc : pyIn "infeasible" c = false) :
    (solve_network n cf (constOracle s c)).warned = true ∧
    (solve_network n cf (constOracle s c)).outcome = Except.ok n := by
  cases hsk : effectiveSkip n cf <;>
    simp [solve_network, constOracle, hsk, hc, bne_iff_ne, hs]

/-- Witness for C2 at the pair (warning, suboptimal). -/
theorem solve_network_nonok_warns_witness :
    (solve_network exNet cfNone (constOracle "warning" "suboptimal")).warned = true ∧
    (solve_network exNet cfNone (constOracle "warning" "suboptimal")).outcome =
      Except.ok exNet :=
  solve_network_nonok_warns exNet cfNone "warning" "suboptimal"
    (by decide) (by decide)

/-- C3 (code-bug evidence): extra_functionality binds opts to the empty
string at line 500, so even on a network that carries the flags BAU, SAFE
and CCL in the options of the run and has an extendable generator, no BAU,
SAFE or CCL constraint is registered: the function returns the network
unchanged. -/
theorem extra_functionality_ignores_flags :
    pyIn "BAU" exNet.opts = true ∧ pyIn "SAFE" exNet.opts = true ∧
    pyIn "CCL" exNet.opts = true ∧
    exNet.generators.any (fun g => g.p_nom_extendable) = true ∧
    extra_functionality exNet exConfigOff exEnvIOErr = Except.ok exNet :=
  ⟨by decide, by decide, by decide, rfl, rfl⟩

/-- C4 (code-bug evidence): solve_network invokes the iterative entry point
unconditionally at line 547 before the skip branch, so with
skip_iterations set to true the call trace is an iterative call (with no
iteration keyword arguments) followed by the plain optimize call; in the
non-skipped case the iterative entry point runs twice and the second call
receives track/min/max wrapped in 1-tuples. -/
theorem solve_network_leftover_iterative_call :
    cfSkip.skip_iterations = some true ∧
    (solve_network exNet cfSkip (constOracle "ok" "optimal")).calls =
      [SolveCall.iterative none none none, SolveCall.plainOptimize] ∧
    cfNone.skip_iterations = none ∧
    exNetLines.lines.any (fun l => l.s_nom_extendable) = true ∧
    (solve_network exNetLines cfNone (constOracle "ok" "optimal")).calls =
      [SolveCall.iterative none none none,
       SolveCall.iterative (some [false]) (some [4]) (some [6])] :=
  ⟨rfl, rfl, rfl, rfl, rfl⟩

/-- C5 counterexample: when the CSV read fails with an IOError, the failure
is logged but the read exception does NOT propagate to the caller of
add_CCL_constraints (the except handler swallows it). -/
theorem add_CCL_read_error_not_propagated :
    (add_CCL_constraints exNet exEnvIOErr).1 = true ∧
    (add_CCL_constraints exNet exEnvIOErr).2 ≠ Except.error PyErr.ioError :=
  ⟨rfl, by decide⟩

/-- C5 (amended): when the CSV read fails with an IOError, the failure is
logged, the read exception is caught and suppressed, and the subsequent
computation that depends on the file fails with a reference (NameError)
error, which is what propagates to the caller. -/
theorem add_CCL_read_error_logged_then_name_error (n : Network) (env : Env)
    (hv : n.model.vars.contains "Generator-p_nom" = true)
    (hr : env.readAggCsv = Except.error PyErr.ioError) :
    (add_CCL_constraints n env).1 = true ∧
    (add_CCL_constraints n env).2 = Except.error PyErr.nameError := by
  have hm : "Generator-p_nom" ∈ n.model.vars := by simpa using hv
  simp [add_CCL_constraints, hr, getVar, hm]

/-- Witness for the amended C5 at a network holding the capacity variable
and an environment whose read fails with an IOError. -/
theorem add_CCL_read_error_logged_then_name_error_witness :
    (add_CCL_constraints exNet exEnvIOErr).1 = true ∧
    (add_CCL_constraints exNet exEnvIOErr).2 = Except.error PyErr.nameError :=
  add_CCL_read_error_logged_then_name_error exNet exEnvIOErr (by decide) rfl

/-- C6 (code-bug evidence): on the pair first with keys a and x, second
with key a only, the extra key x appears in the column difference, yet the
value-comparison report is empty although the common key a holds 1 in the
first document and 2 in the second: both comparison operands of source
lines 60-66 are built from the second frame, so common-key differences are
lost whenever the column sets differ. -/
theorem compare_config_common_diff_lost :
    compare_config exFirstDoc exSecondDoc = (["x"], Except.ok []) ∧
    lookupCell (flatten exFirstDoc) "a" = some 1 ∧
    lookupCell (flatten exSecondDoc) "a" = some 2 :=
  ⟨rfl, rfl, rfl⟩

/-- C7: comparing a document with itself yields an empty column difference
(hence no col_diff.csv is written) and an empty comparison report. -/
theorem compare_config_identical (d : Doc) :
    compare_config d d = ([], Except.ok []) ∧
    writes_col_diff_csv d d = false := by
  have h := compare_config_same_cols d d rfl
  have hcd : colDiffOf d d = [] := colDiff_self _
  constructor
  · rw [h, compareRows_self]
  · unfold writes_col_diff_csv
    rw [hcd]
    simp

/-- C8: two documents whose flattened forms agree everywhere except in the
value of one (possibly deeply nested) key produce an empty column
difference and a one-row report holding the joined key and both original
values. -/
theorem compare_config_single_nested_diff
    (d1 d2 : Doc) (l1 l2 : List (String × Int)) (k : String) (v1 v2 : Int)
    (h1 : flatten d1 = l1 ++ (k, v1) :: l2)
    (h2 : flatten d2 = l1 ++ (k, v2) :: l2)
    (hv : v1 ≠ v2) :
    compare_config d1 d2 = ([], Except.ok [(k, some v2, some v1)]) := by
  have hc : (flatten d2).map Prod.fst = (flatten d1).map Prod.fst := by
    rw [h1, h2]
    simp
  rw [compare_config_same_cols d1 d2 hc, h1, h2]
  have ha : toRow (l1 ++ (k, v2) :: l2) = toRow l1 ++ (k, some v2) :: toRow l2 := by
    simp [toRow]
  have hb : toRow (l1 ++ (k, v1) :: l2) = toRow l1 ++ (k, some v1) :: toRow l2 := by
    simp [toRow]
  rw [ha, hb, compareRows_single_diff (toRow l1) (toRow l2) k (some v2) (some v1)
    (fun hsome => hv (Option.some.inj hsome).symm)]

/-- Witness for C8 on the documents of the spec example: A maps a.b to 1,
B maps a.b to 2, and the report holds the single row a+b with both values. -/
theorem compare_config_single_nested_diff_witness :
    compare_config exDocA exDocB = ([], Except.ok [("a+b", some 2, some 1)]) :=
  compare_config_single_nested_diff exDocA exDocB [] [] "a+b" 1 2 rfl rfl
    (by decide)

/-- C9: flattening is an idempotent normalization: re-flattening the
reloaded flat form of any document reproduces exactly the same keys and
values (and flattening is a function, hence deterministic). -/
theorem flatten_idempotent (d : Doc) :
    flatten (asDoc (flatten d)) = flatten d :=
  flatten_asDoc (flatten d)

/-- C10: on a network without any battery-carrier bus,
add_battery_constraints returns the network unchanged: no
link_charger_ratio constraint is registered and the model is untouched. -/
theorem add_battery_constraints_no_battery (n : Network)
    (h : ∀ b ∈ n.buses, b.carrier ≠ "battery") :
    add_battery_constraints n = Except.ok n := by
  have hf : n.buses.filter (fun b => b.carrier == "battery") = [] := by
    apply List.filter_eq_nil_iff.mpr
    intro b hb
    simpa using h b hb
  simp [add_battery_constraints, hf, pure, Except.pure]

/-- Witness for C10 on the network with a single AC bus. -/
theorem add_battery_constraints_no_battery_witness :
    add_battery_constraints exNet = Except.ok exNet :=
  add_battery_constraints_no_battery exNet (by decide)

end PyPSAEarth
